import Mathlib

/-!
Verification development for the AI Trip Planner orchestration flow
(`src/main.py`).  The Python source is shallowly embedded: JSON numbers
become rationals, Python dicts become structures, the two Google-Maps
HTTP endpoints become explicit response values / response oracles passed
in as parameters, and every fallible step returns an `Option`.  Functions
keep the source's names.  Instrumentation (a call counter for the details
endpoint and for the per-place validator, and a list of display events
mirroring the `st.*` calls) makes the control-flow claims statable.
-/

/-! ### Python dynamic values and `validate_coordinates` (main.py lines 21-31) -/

/-- A Python value as fed to `validate_coordinates`: a number, a string
that `float()` parses (carried with its numeric value), a string that
`float()` rejects, or `None`. -/
inductive PyValue where
  | num (q : ℚ)
  | numStr (q : ℚ)
  | badStr (s : String)
  | pyNone
deriving Repr, DecidableEq

/-- Semantics of Python `float(x)`: numbers and numeric strings convert,
anything else raises (modelled as `none`). -/
def PyValue.toFloat : PyValue → Option ℚ
  | .num q => some q
  | .numStr q => some q
  | .badStr _ => none
  | .pyNone => none

/-- main.py lines 21-31: `float`-convert both inputs (any failure is caught
and yields `False`), then check Earth bounds. -/
def validate_coordinates (lat lng : PyValue) : Bool :=
  match lat.toFloat, lng.toFloat with
  | some la, some ln =>
    if ¬ (-90 ≤ la ∧ la ≤ 90 ∧ -180 ≤ ln ∧ ln ≤ 180) then false else true
  | _, _ => false

/-! ### Google Maps responses (external interface of main.py lines 53-96) -/

/-- One entry of the text-search `results` array; only `place_id` is read. -/
structure TextSearchResult where
  place_id : String
deriving Repr, DecidableEq

/-- Response of the Places text-search endpoint. -/
structure TextSearchResponse where
  status : String
  results : List TextSearchResult
deriving Repr, DecidableEq

/-- One entry of the details `photos` array; only `photo_reference` is read. -/
structure Photo where
  photo_reference : String
deriving Repr, DecidableEq

/-- The `result` object of a details response.  `formatted_address` and
`url` are read with `.get(..., '')` in the source, hence `Option`;
`photos` is `Option` because the source tests `'photos' in result`. -/
structure DetailsResult where
  lat : ℚ
  lng : ℚ
  formatted_address : Option String
  url : Option String
  photos : Option (List Photo)
deriving Repr, DecidableEq

/-- Response of the Place Details endpoint. -/
structure DetailsResponse where
  status : String
  result : DetailsResult
deriving Repr, DecidableEq

/-- Outcome of `validate_place_with_google_maps`: the Python 6-tuple
`(True, lat, lng, place_id, maps_url, photo_url)` or the failure tuple
`(False, None, None, None, None, None)`. -/
inductive PlaceLookupResult where
  | found (lat lng : ℚ) (place_id maps_url : String) (photo_url : Option String)
  | notFound
deriving Repr, DecidableEq

/-- `True` exactly on the success tuple. -/
def PlaceLookupResult.isFound : PlaceLookupResult → Bool
  | .found .. => true
  | .notFound => false

/-- main.py line 82: the fetchable photo URL built from the first photo
reference, with the fixed `maxwidth=800` parameter. -/
def photoUrlOf (key ref : String) : String :=
  "https://maps.googleapis.com/maps/api/place/photo?" ++ "maxwidth=800" ++
    "&photo_reference=" ++ ref ++ "&key=" ++ key

/-- main.py lines 53-96 (`validate_place_with_google_maps`), with the two
HTTP calls abstracted: `textData` is the already-fetched text-search
response for this place's query, and `detailsOf` maps a `place_id` to the
details response the endpoint would return.  The second component counts
how many times the details endpoint was called (0 or 1). -/
def validate_place_with_google_maps (key : String) (textData : TextSearchResponse)
    (detailsOf : String → DetailsResponse) : PlaceLookupResult × Nat :=
  match textData.status == "OK", textData.results with
  | true, r0 :: _ =>
    let place_id := r0.place_id
    let detailsData := detailsOf place_id
    if detailsData.status == "OK" then
      let result := detailsData.result
      let google_lat := result.lat
      let google_lng := result.lng
      let maps_url := result.url.getD ""
      let photo_url : Option String :=
        match result.photos with
        | some (ph :: _) => some (photoUrlOf key ph.photo_reference)
        | _ => none
      (.found google_lat google_lng place_id maps_url photo_url, 1)
    else (.notFound, 1)
  | _, _ => (.notFound, 0)

/-! ### Candidate and validated places (data model) -/

/-- A place as parsed from the recommendation model's JSON array
(`name, description, latitude, longitude`); coordinates are untrusted
placeholders. -/
structure CandidatePlace where
  name : String
  description : String
  latitude : ℚ
  longitude : ℚ
deriving Repr, DecidableEq

/-- A candidate after successful validation: coordinates overwritten with
the authoritative values, plus `place_id`, `maps_url` and the optional
`photo_url` (main.py lines 148-152 mutate the dict in place). -/
structure ValidatedPlace where
  name : String
  description : String
  latitude : ℚ
  longitude : ℚ
  place_id : String
  maps_url : String
  photo_url : Option String
deriving Repr, DecidableEq

/-- Caller-visible display events, one per `st.warning` / `st.error` /
rendering call in `get_places_from_ai` and `main`. -/
inductive DisplayEvent where
  | promptWarning
  | extractError
  | recError
  | skipWarning (n : String)
  | placeCard (n : String)
  | combinedLink (u : String)
deriving Repr, DecidableEq

/-- main.py line 57: the text-search query string for one place. -/
def search_query (place_name location : String) : String :=
  place_name ++ ", " ++ location

/-- One place's whole lookup (main.py line 146): text search on
`"{name}, {location}"` through the text-search oracle `textOf`, then the
details call.  Only the result tuple, not the call counter. -/
def lookupPlace (key : String) (textOf : String → TextSearchResponse)
    (detailsOf : String → DetailsResponse) (location place_name : String) :
    PlaceLookupResult :=
  (validate_place_with_google_maps key (textOf (search_query place_name location)) detailsOf).1

/-- main.py lines 144-157: the sequential validation loop.  Returns the
validated places (in input order, failures dropped) together with the
display events (one skip warning per dropped place, in input order). -/
def validateAll (key : String) (textOf : String → TextSearchResponse)
    (detailsOf : String → DetailsResponse) (location : String) :
    List CandidatePlace → List ValidatedPlace × List DisplayEvent
  | [] => ([], [])
  | place :: rest =>
    match lookupPlace key textOf detailsOf location place.name with
    | .found lat lng pid murl purl =>
      (⟨place.name, place.description, lat, lng, pid, murl, purl⟩
          :: (validateAll key textOf detailsOf location rest).1,
        (validateAll key textOf detailsOf location rest).2)
    | .notFound =>
      ((validateAll key textOf detailsOf location rest).1,
        .skipWarning place.name :: (validateAll key textOf detailsOf location rest).2)

/-- Outcome of `extract_location_from_prompt` (main.py lines 33-51): the
model call either errors (caught, `st.error`, returns `None`) or yields
the stripped content string (possibly empty). -/
inductive ExtractOutcome where
  | errored
  | content (s : String)
deriving Repr, DecidableEq

/-- main.py lines 98-164 (`get_places_from_ai`), with the model calls
abstracted: `loc` is the extraction outcome and `parsed` the outcome of
`json.loads` on the recommendation content (`none` = parse raised, caught
by the `except` which shows `st.error` and returns `None`).  Components:
the returned value (line 160 turns an empty validated list into `None`),
the number of validator invocations, and the display events. -/
def get_places_from_ai (key : String) (textOf : String → TextSearchResponse)
    (detailsOf : String → DetailsResponse) (loc : ExtractOutcome)
    (parsed : Option (List CandidatePlace)) :
    Option (List ValidatedPlace) × Nat × List DisplayEvent :=
  match loc with
  | .errored => (none, 0, [.extractError])
  | .content location =>
    if location = "" then (none, 0, [])
    else
      match parsed with
      | none => (none, 0, [.recError])
      | some places =>
        let validated_places := (validateAll key textOf detailsOf location places).1
        ((if validated_places.isEmpty then none else some validated_places),
          places.length,
          (validateAll key textOf detailsOf location places).2)

/-! ### Map URL construction (main.py lines 166-197 and 241-244) -/

/-- main.py line 183: one marker clause, numbered `i`, at the place's
validated coordinates (number rendering stands in for Python float
formatting). -/
def markerOf (i : Nat) (place : ValidatedPlace) : String :=
  "&markers=color:red|label:" ++ toString i ++ "|" ++
    toString place.latitude ++ "," ++ toString place.longitude

/-- main.py lines 181-185: the `enumerate(places, 1)` marker loop. -/
def buildMarkers (i : Nat) : List ValidatedPlace → List String
  | [] => []
  | p :: ps => markerOf i p :: buildMarkers (i + 1) ps

/-- main.py lines 166-191 (`create_google_maps_embed`): `None` on an empty
list, else the embed URL centred by the first place's `place_id` at zoom
12 with the joined marker clauses appended. -/
def create_google_maps_embed (key : String) (places : List ValidatedPlace) :
    Option String :=
  match places with
  | [] => none
  | first_place :: rest =>
    some ("https://www.google.com/maps/embed/v1/place" ++ "?key=" ++ key ++
      "&q=place_id:" ++ first_place.place_id ++ "&zoom=12" ++
      String.join (buildMarkers 1 (first_place :: rest)))

/-- main.py lines 193-197 (`create_individual_map_embed`). -/
def create_individual_map_embed (key : String) (place : ValidatedPlace) : String :=
  "https://www.google.com/maps/embed/v1/view" ++ "?key=" ++ key ++ "&center=" ++
    toString place.latitude ++ "," ++ toString place.longitude ++ "&zoom=16"

/-! ### `urllib.parse.quote` and the directions link (main.py lines 241-244) -/

/-- Uppercase hexadecimal digit. -/
def hexUpper (n : Nat) : Char :=
  if n < 10 then Char.ofNat (48 + n) else Char.ofNat (55 + n)

/-- `%XX` escape of one byte. -/
def percentByte (n : Nat) : String :=
  String.mk ['%', hexUpper (n / 16), hexUpper (n % 16)]

/-- Bytes `urllib.parse.quote` leaves unescaped with the default
`safe='/'`: ASCII letters, digits, `_ . - ~` and `/`. -/
def quoteSafe (n : Nat) : Bool :=
  (decide (65 ≤ n) && decide (n ≤ 90)) || (decide (97 ≤ n) && decide (n ≤ 122)) ||
    (decide (48 ≤ n) && decide (n ≤ 57)) ||
    (n == 95) || (n == 46) || (n == 45) || (n == 126) || (n == 47)

/-- The UTF-8 encoding of one character, as byte values. -/
def utf8Bytes (c : Char) : List Nat :=
  let n := c.toNat
  if n < 128 then [n]
  else if n < 2048 then [192 + n / 64, 128 + n % 64]
  else if n < 65536 then [224 + n / 4096, 128 + (n / 64) % 64, 128 + n % 64]
  else [240 + n / 262144, 128 + (n / 4096) % 64, 128 + (n / 64) % 64, 128 + n % 64]

/-- `urllib.parse.quote` with default arguments: percent-escape every
UTF-8 byte outside the safe set. -/
def quote (s : String) : String :=
  String.join ((s.data.map utf8Bytes).flatten.map (fun n =>
    if quoteSafe n then String.singleton (Char.ofNat n) else percentByte n))

/-- main.py line 242: one directions stop, `"name@lat,lng"`. -/
def stopString (p : ValidatedPlace) : String :=
  p.name ++ "@" ++ toString p.latitude ++ "," ++ toString p.longitude

/-- Python `'/'.join`. -/
def joinSlash : List String → String
  | [] => ""
  | [a] => a
  | a :: b :: rest => a ++ "/" ++ joinSlash (b :: rest)

/-- main.py lines 242-243: the multi-stop directions deep link. -/
def combined_map_link (places : List ValidatedPlace) : String :=
  "https://www.google.com/maps/dir/" ++
    joinSlash (places.map (fun p => quote (stopString p)))

/-- main.py lines 219-244: rendering of a non-empty validated list — one
card per place, then the combined directions link. -/
def renderPlaces (places : List ValidatedPlace) : List DisplayEvent :=
  places.map (fun p => DisplayEvent.placeCard p.name) ++
    [DisplayEvent.combinedLink (combined_map_link places)]

/-- main.py lines 199-246 (`main`): the caller-visible display events of
one activation.  `if st.button(...)` then `if user_prompt:` (truthiness =
non-empty); `if places:` renders, a falsy result renders nothing further;
an empty prompt shows the prompt warning. -/
def mainEvents (key : String) (textOf : String → TextSearchResponse)
    (detailsOf : String → DetailsResponse) (loc : ExtractOutcome)
    (parsed : Option (List CandidatePlace)) (user_prompt : String)
    (buttonPressed : Bool) : List DisplayEvent :=
  if buttonPressed then
    if user_prompt ≠ "" then
      match get_places_from_ai key textOf detailsOf loc parsed with
      | (some places, _, evs) => evs ++ renderPlaces places
      | (none, _, evs) => evs
    else [.promptWarning]
  else []

/-! ### Helper lemmas -/

/-- The if-pattern of `validate_coordinates` unfolded. -/
lemma if_not_false_true (P : Prop) [Decidable P] :
    (if ¬ P then false else true) = true ↔ P := by
  by_cases h : P <;> simp [h]

/-- A success tuple of the validator carries exactly the geometry of the
details response for the returned `place_id`. -/
lemma validate_place_found_fields (key : String) (td : TextSearchResponse)
    (d : String → DetailsResponse) (lat lng : ℚ) (pid murl : String)
    (purl : Option String)
    (h : (validate_place_with_google_maps key td d).1
        = PlaceLookupResult.found lat lng pid murl purl) :
    lat = (d pid).result.lat ∧ lng = (d pid).result.lng := by
  unfold validate_place_with_google_maps at h
  split at h
  · dsimp only at h
    split at h
    · simp at h
      obtain ⟨h1, h2, h3, h4, h5⟩ := h
      subst h3
      exact ⟨h1.symm, h2.symm⟩
    · simp at h
  · simp at h

/-- Full evaluation of the validator when the text search succeeds with a
first result `r0` and the details call for `r0.place_id` succeeds. -/
lemma validate_place_found_eval (key : String) (td : TextSearchResponse)
    (d : String → DetailsResponse) (r0 : TextSearchResult)
    (tl : List TextSearchResult) (hres : td.results = r0 :: tl)
    (hst : td.status = "OK") (hds : (d r0.place_id).status = "OK") :
    validate_place_with_google_maps key td d
      = (PlaceLookupResult.found (d r0.place_id).result.lat
          (d r0.place_id).result.lng r0.place_id
          ((d r0.place_id).result.url.getD "")
          (match (d r0.place_id).result.photos with
            | some (ph :: _) => some (photoUrlOf key ph.photo_reference)
            | _ => none), 1) := by
  unfold validate_place_with_google_maps
  rw [hres, hst]
  simp [hds]

/-- If every candidate's lookup fails, the loop validates nothing and
emits one skip warning per candidate, in order. -/
lemma validateAll_all_notfound (key : String)
    (textOf : String → TextSearchResponse) (detailsOf : String → DetailsResponse)
    (location : String) (cands : List CandidatePlace)
    (h : ∀ c ∈ cands, lookupPlace key textOf detailsOf location c.name
        = PlaceLookupResult.notFound) :
    validateAll key textOf detailsOf location cands
      = ([], cands.map (fun c => DisplayEvent.skipWarning c.name)) := by
  induction cands with
  | nil => rfl
  | cons c rest ih =>
    have hc := h c (List.mem_cons_self c rest)
    have ht := ih (fun x hx => h x (List.mem_cons_of_mem c hx))
    simp [validateAll, hc, ht]

/-- The marker loop yields one clause per place. -/
lemma buildMarkers_length (k : Nat) (ps : List ValidatedPlace) :
    (buildMarkers k ps).length = ps.length := by
  induction ps generalizing k with
  | nil => rfl
  | cons p ps ih => simp [buildMarkers, ih]

/-- The `i`-th marker clause is the `(k+i)`-numbered marker of the `i`-th
place. -/
lemma buildMarkers_getElem (k : Nat) (ps : List ValidatedPlace) (i : Nat) :
    (buildMarkers k ps)[i]? = (ps[i]?).map (fun p => markerOf (k + i) p) := by
  induction ps generalizing k i with
  | nil => simp [buildMarkers]
  | cons p ps ih =>
    cases i with
    | zero => simp [buildMarkers]
    | succ j =>
      have harith : k + 1 + j = k + (j + 1) := by omega
      simp [buildMarkers, ih (k + 1) j, harith]

/-- `String.join` of a non-empty list, unfolded. -/
lemma stringJoin_cons (a : String) (l : List String) :
    String.join (a :: l) = a ++ String.join l := by
  apply String.ext
  simp

/-- `'/'.join` of a non-empty list, unfolded. -/
lemma joinSlash_cons (a : String) (l : List String) :
    joinSlash (a :: l) = a ++ String.join (l.map (fun s => "/" ++ s)) := by
  induction l generalizing a with
  | nil => simp [joinSlash, String.join]
  | cons b t ih =>
    rw [joinSlash, ih b, List.map_cons, stringJoin_cons]
    simp [String.append_assoc]

/-! ### Claim theorems -/

/-- Claim C1: for every text-search response whose status is not `"OK"` or
whose results sequence is empty, `validate_place_with_google_maps` returns
the failure tuple (`notFound`) and the details endpoint is called zero
times. -/
theorem c1_text_search_failure_skips_details (key : String)
    (textData : TextSearchResponse) (detailsOf : String → DetailsResponse)
    (h : textData.status ≠ "OK" ∨ textData.results = []) :
    validate_place_with_google_maps key textData detailsOf
      = (PlaceLookupResult.notFound, 0) := by
  unfold validate_place_with_google_maps
  rcases h with h | h
  · have hb : (textData.status == "OK") = false := by simp [h]
    rw [hb]
  · rw [h]
    cases hb : textData.status == "OK" <;> rfl

/-- Witness for C1 at a concrete failed text search. -/
theorem c1_witness :
    ((⟨"ZERO_RESULTS", [⟨"p1"⟩]⟩ : TextSearchResponse).status ≠ "OK"
        ∨ (⟨"ZERO_RESULTS", [⟨"p1"⟩]⟩ : TextSearchResponse).results = [])
    ∧ validate_place_with_google_maps "k" ⟨"ZERO_RESULTS", [⟨"p1"⟩]⟩
        (fun _ => ⟨"OK", ⟨48, 2, some "a", some "u", none⟩⟩)
      = (PlaceLookupResult.notFound, 0) :=
  ⟨Or.inl (by decide),
    c1_text_search_failure_skips_details "k" ⟨"ZERO_RESULTS", [⟨"p1"⟩]⟩
      (fun _ => ⟨"OK", ⟨48, 2, some "a", some "u", none⟩⟩) (Or.inl (by decide))⟩

/-- Counterexample to C2 as stated: the code performs no bounds check on
the details geometry (`validate_coordinates` is never called on this
path), so a details response with latitude 100 and longitude 200 yields a
ValidatedPlace with out-of-range coordinates. -/
theorem c2_counterexample :
    (validateAll "k" (fun _ => ⟨"OK", [⟨"p1"⟩]⟩)
        (fun _ => ⟨"OK", ⟨100, 200, some "a", some "u", none⟩⟩) "Paris"
        [⟨"Eiffel Tower", "d", 0, 0⟩]).1
      = [⟨"Eiffel Tower", "d", 100, 200, "p1", "u", none⟩]
    ∧ ¬ ((100 : ℚ) ≤ 90 ∧ (200 : ℚ) ≤ 180) :=
  ⟨rfl, by decide⟩

/-- Claim C2, amended: the validation flow copies coordinates verbatim
from the details responses, so whenever every details response the oracle
can return has in-range geometry, every ValidatedPlace produced by the
flow has latitude in `[-90, 90]` and longitude in `[-180, 180]`. -/
theorem c2_validated_coords_in_bounds (key : String)
    (textOf : String → TextSearchResponse) (detailsOf : String → DetailsResponse)
    (location : String) (cands : List CandidatePlace)
    (hb : ∀ pid, -90 ≤ (detailsOf pid).result.lat
        ∧ (detailsOf pid).result.lat ≤ 90
        ∧ -180 ≤ (detailsOf pid).result.lng
        ∧ (detailsOf pid).result.lng ≤ 180) :
    ∀ v ∈ (validateAll key textOf detailsOf location cands).1,
      -90 ≤ v.latitude ∧ v.latitude ≤ 90
        ∧ -180 ≤ v.longitude ∧ v.longitude ≤ 180 := by
  induction cands with
  | nil => intro v hv; simp [validateAll] at hv
  | cons c rest ih =>
    intro v hv
    cases hl : lookupPlace key textOf detailsOf location c.name with
    | found lat lng pid murl purl =>
      simp only [validateAll, hl] at hv
      rcases List.mem_cons.mp hv with rfl | hv
      · obtain ⟨e1, e2⟩ := validate_place_found_fields key
          (textOf (search_query c.name location)) detailsOf lat lng pid murl purl hl
        dsimp only
        rw [e1, e2]
        exact hb pid
      · exact ih v hv
    | notFound =>
      simp only [validateAll, hl] at hv
      exact ih v hv

/-- Witness for the amended C2 at a concrete in-range details oracle. -/
theorem c2_witness :
    -90 ≤ ((⟨"Eiffel Tower", "d", 48, 2, "p1", "u", none⟩ : ValidatedPlace)).latitude
    ∧ ((⟨"Eiffel Tower", "d", 48, 2, "p1", "u", none⟩ : ValidatedPlace)).latitude ≤ 90
    ∧ -180 ≤ ((⟨"Eiffel Tower", "d", 48, 2, "p1", "u", none⟩ : ValidatedPlace)).longitude
    ∧ ((⟨"Eiffel Tower", "d", 48, 2, "p1", "u", none⟩ : ValidatedPlace)).longitude ≤ 180 :=
  c2_validated_coords_in_bounds "k" (fun _ => ⟨"OK", [⟨"p1"⟩]⟩)
    (fun _ => ⟨"OK", ⟨48, 2, some "a", some "u", none⟩⟩) "Paris"
    [⟨"Eiffel Tower", "d", 0, 0⟩]
    (fun _ => (by decide :
      -90 ≤ (48 : ℚ) ∧ (48 : ℚ) ≤ 90 ∧ -180 ≤ (2 : ℚ) ∧ (2 : ℚ) ≤ 180))
    ⟨"Eiffel Tower", "d", 48, 2, "p1", "u", none⟩ (by decide)

/-- Claim C3: `validate_coordinates` returns `True` exactly when both
inputs `float`-convert and the converted pair lies within
`[-90, 90] × [-180, 180]`; any out-of-range or non-convertible input
yields `False`. -/
theorem c3_validate_coordinates_spec (lat lng : PyValue) :
    validate_coordinates lat lng = true ↔
      ∃ la ln, lat.toFloat = some la ∧ lng.toFloat = some ln
        ∧ -90 ≤ la ∧ la ≤ 90 ∧ -180 ≤ ln ∧ ln ≤ 180 := by
  cases lat <;> cases lng <;>
    simp [validate_coordinates, PyValue.toFloat, if_not_false_true]

/-- Claim C4: the validation loop is applied to each candidate in
sequence; the validated list is exactly the in-order subsequence of
candidates whose lookup succeeded (projected to their kept fields), and
every produced place carries exactly the authoritative data its lookup
returned, its coordinates overwritten. -/
theorem c4_validation_loop_subsequence (key : String)
    (textOf : String → TextSearchResponse) (detailsOf : String → DetailsResponse)
    (location : String) (cands : List CandidatePlace) :
    ((validateAll key textOf detailsOf location cands).1.map
        (fun v => (v.name, v.description))
      = (cands.filter
          (fun c => (lookupPlace key textOf detailsOf location c.name).isFound)).map
          (fun c => (c.name, c.description)))
    ∧ ∀ v ∈ (validateAll key textOf detailsOf location cands).1,
        lookupPlace key textOf detailsOf location v.name
          = PlaceLookupResult.found v.latitude v.longitude v.place_id
              v.maps_url v.photo_url := by
  constructor
  · induction cands with
    | nil => simp [validateAll]
    | cons c rest ih =>
      cases hl : lookupPlace key textOf detailsOf location c.name with
      | found lat lng pid murl purl =>
        simp [validateAll, hl, List.filter_cons, PlaceLookupResult.isFound, ih]
      | notFound =>
        simp [validateAll, hl, List.filter_cons, PlaceLookupResult.isFound, ih]
  · induction cands with
    | nil => intro v hv; simp [validateAll] at hv
    | cons c rest ih =>
      intro v hv
      cases hl : lookupPlace key textOf detailsOf location c.name with
      | found lat lng pid murl purl =>
        simp only [validateAll, hl] at hv
        rcases List.mem_cons.mp hv with rfl | hv
        · exact hl
        · exact ih v hv
      | notFound =>
        simp only [validateAll, hl] at hv
        exact ih v hv

/-- Witness for C4 at a concrete one-candidate run. -/
theorem c4_witness :
    lookupPlace "k" (fun _ => ⟨"OK", [⟨"p1"⟩]⟩)
        (fun _ => ⟨"OK", ⟨48, 2, some "a", some "u", none⟩⟩) "Paris" "Eiffel Tower"
      = PlaceLookupResult.found 48 2 "p1" "u" none :=
  (c4_validation_loop_subsequence "k" (fun _ => ⟨"OK", [⟨"p1"⟩]⟩)
      (fun _ => ⟨"OK", ⟨48, 2, some "a", some "u", none⟩⟩) "Paris"
      [⟨"Eiffel Tower", "d", 0, 0⟩]).2
    ⟨"Eiffel Tower", "d", 48, 2, "p1", "u", none⟩ (by decide)

/-- Claim C5: for a non-empty place list the overview URL is the embed
base centred by the first place's `place_id` at zoom 12 followed by the
joined marker clauses; there are exactly as many marker clauses as
places, and the `i`-th clause is the marker numbered `i+1` at the `i`-th
place's validated coordinates. -/
theorem c5_overview_map_markers (key : String) (first_place : ValidatedPlace)
    (rest : List ValidatedPlace) (i : Nat) :
    create_google_maps_embed key (first_place :: rest)
      = some ("https://www.google.com/maps/embed/v1/place" ++ "?key=" ++ key ++
          "&q=place_id:" ++ first_place.place_id ++ "&zoom=12" ++
          String.join (buildMarkers 1 (first_place :: rest)))
    ∧ (buildMarkers 1 (first_place :: rest)).length
        = (first_place :: rest).length
    ∧ (buildMarkers 1 (first_place :: rest))[i]?
        = ((first_place :: rest)[i]?).map (fun p => markerOf (i + 1) p) :=
  ⟨rfl, buildMarkers_length 1 (first_place :: rest),
    by rw [buildMarkers_getElem, Nat.add_comm 1 i]⟩

/-- Claim C6: when the recommendation content fails to parse as JSON,
`get_places_from_ai` returns the failure value, surfaces the error, and
invokes the per-place validator zero times. -/
theorem c6_malformed_rec_no_validation (key : String)
    (textOf : String → TextSearchResponse) (detailsOf : String → DetailsResponse)
    (location : String) (h : location ≠ "") :
    get_places_from_ai key textOf detailsOf (.content location) none
      = (none, 0, [DisplayEvent.recError]) := by
  simp [get_places_from_ai, h]

/-- Witness for C6 at a concrete location. -/
theorem c6_witness :
    ("Paris" : String) ≠ ""
    ∧ get_places_from_ai "k" (fun _ => ⟨"OK", [⟨"p1"⟩]⟩)
        (fun _ => ⟨"OK", ⟨48, 2, some "a", some "u", none⟩⟩)
        (.content "Paris") none
      = (none, 0, [DisplayEvent.recError]) :=
  ⟨by decide,
    c6_malformed_rec_no_validation "k" (fun _ => ⟨"OK", [⟨"p1"⟩]⟩)
      (fun _ => ⟨"OK", ⟨48, 2, some "a", some "u", none⟩⟩) "Paris" (by decide)⟩

/-- Claim C7: for a successful text search and a details response with
status `"OK"`: if the result has a non-empty photos sequence, the produced
place's photo URL is present and contains the first photo's reference and
the fixed `maxwidth=800` parameter; if the result has no photos field, the
photo URL is `none`. -/
theorem c7_photo_url_spec (key : String) (textData : TextSearchResponse)
    (detailsOf : String → DetailsResponse) (r0 : TextSearchResult)
    (tl : List TextSearchResult) (hres : textData.results = r0 :: tl)
    (hst : textData.status = "OK")
    (hds : (detailsOf r0.place_id).status = "OK") :
    (∀ ph phs, (detailsOf r0.place_id).result.photos = some (ph :: phs) →
      ∃ u, (validate_place_with_google_maps key textData detailsOf).1
          = PlaceLookupResult.found (detailsOf r0.place_id).result.lat
              (detailsOf r0.place_id).result.lng r0.place_id
              ((detailsOf r0.place_id).result.url.getD "") (some u)
        ∧ (∃ a b, u = a ++ "maxwidth=800" ++ b)
        ∧ (∃ a b, u = a ++ ph.photo_reference ++ b))
    ∧ ((detailsOf r0.place_id).result.photos = none →
      (validate_place_with_google_maps key textData detailsOf).1
        = PlaceLookupResult.found (detailsOf r0.place_id).result.lat
            (detailsOf r0.place_id).result.lng r0.place_id
            ((detailsOf r0.place_id).result.url.getD "") none) := by
  have he := validate_place_found_eval key textData detailsOf r0 tl hres hst hds
  have h1 := congrArg Prod.fst he
  constructor
  · intro ph phs hph
    rw [hph] at h1
    refine ⟨photoUrlOf key ph.photo_reference, h1, ?_, ?_⟩
    · exact ⟨"https://maps.googleapis.com/maps/api/place/photo?",
        "&photo_reference=" ++ ph.photo_reference ++ "&key=" ++ key,
        by simp only [photoUrlOf, String.append_assoc]⟩
    · exact ⟨"https://maps.googleapis.com/maps/api/place/photo?" ++ "maxwidth=800" ++
          "&photo_reference=", "&key=" ++ key,
        by simp only [photoUrlOf, String.append_assoc]⟩
  · intro hph
    rw [hph] at h1
    exact h1

/-- Witness for C7: a photo-bearing details response and a photo-less one. -/
theorem c7_witness :
    ∃ u, (validate_place_with_google_maps "k" ⟨"OK", [⟨"p1"⟩]⟩
        (fun _ => ⟨"OK", ⟨48, 2, some "a", some "u", some [⟨"REF"⟩]⟩⟩)).1
      = PlaceLookupResult.found 48 2 "p1" "u" (some u)
    ∧ (∃ a b, u = a ++ "maxwidth=800" ++ b)
    ∧ (∃ a b, u = a ++ "REF" ++ b) :=
  (c7_photo_url_spec "k" ⟨"OK", [⟨"p1"⟩]⟩
      (fun _ => ⟨"OK", ⟨48, 2, some "a", some "u", some [⟨"REF"⟩]⟩⟩)
      ⟨"p1"⟩ [] rfl rfl rfl).1 ⟨"REF"⟩ [] rfl

/-- Counterexample to C8 as stated: on a submitted non-empty query whose
candidate list is empty — so every candidate vacuously yields NotFound —
`main` emits no display event at all: the request silently returns
nothing, with no overall empty/failed report.  With one failing candidate
the only output is the per-place skip warning; no overall result message
exists in the code. -/
theorem c8_counterexample :
    mainEvents "k" (fun _ => ⟨"ZERO_RESULTS", []⟩)
        (fun _ => ⟨"OK", ⟨48, 2, some "a", some "u", none⟩⟩)
        (.content "Paris") (some []) "q" true = []
    ∧ (get_places_from_ai "k" (fun _ => ⟨"ZERO_RESULTS", []⟩)
        (fun _ => ⟨"OK", ⟨48, 2, some "a", some "u", none⟩⟩)
        (.content "Paris") (some [])).1 = none
    ∧ mainEvents "k" (fun _ => ⟨"ZERO_RESULTS", []⟩)
        (fun _ => ⟨"OK", ⟨48, 2, some "a", some "u", none⟩⟩)
        (.content "Paris") (some [⟨"Atlantis", "d", 0, 0⟩]) "q" true
      = [DisplayEvent.skipWarning "Atlantis"] :=
  ⟨rfl, rfl, rfl⟩

/-- Claim C8, amended: when every candidate's lookup fails,
`get_places_from_ai` returns `None` (never an empty list) and the
caller-visible output consists solely of the per-place skip warnings — no
overall empty/failed message is rendered; the "no query submitted" case
is still distinguishable because its dedicated prompt warning appears in
no submitted-query outcome. -/
theorem c8_all_notfound_reporting (key : String)
    (textOf : String → TextSearchResponse) (detailsOf : String → DetailsResponse)
    (location : String) (hloc : location ≠ "") (cands : List CandidatePlace)
    (user_prompt : String) (hp : user_prompt ≠ "")
    (hall : ∀ c ∈ cands, lookupPlace key textOf detailsOf location c.name
        = PlaceLookupResult.notFound) :
    (get_places_from_ai key textOf detailsOf (.content location) (some cands)).1
        = none
    ∧ mainEvents key textOf detailsOf (.content location) (some cands)
        user_prompt true
        = cands.map (fun c => DisplayEvent.skipWarning c.name)
    ∧ DisplayEvent.promptWarning
        ∉ mainEvents key textOf detailsOf (.content location) (some cands)
            user_prompt true
    ∧ mainEvents key textOf detailsOf (.content location) (some cands) "" true
        = [DisplayEvent.promptWarning] := by
  have hv := validateAll_all_notfound key textOf detailsOf location cands hall
  have hg : get_places_from_ai key textOf detailsOf (.content location) (some cands)
      = (none, cands.length, cands.map (fun c => DisplayEvent.skipWarning c.name)) := by
    simp [get_places_from_ai, hloc, hv]
  refine ⟨by rw [hg], ?_, ?_, by simp [mainEvents]⟩
  · simp [mainEvents, hp, hg]
  · simp [mainEvents, hp, hg]

/-- Witness for the amended C8 at a concrete all-failing run. -/
theorem c8_witness :
    (get_places_from_ai "k" (fun _ => ⟨"ZERO_RESULTS", []⟩)
        (fun _ => ⟨"OK", ⟨48, 2, some "a", some "u", none⟩⟩)
        (.content "Rome") (some [⟨"Minas Tirith", "d", 0, 0⟩])).1 = none
    ∧ mainEvents "k" (fun _ => ⟨"ZERO_RESULTS", []⟩)
        (fun _ => ⟨"OK", ⟨48, 2, some "a", some "u", none⟩⟩)
        (.content "Rome") (some [⟨"Minas Tirith", "d", 0, 0⟩]) "trip" true
      = [DisplayEvent.skipWarning "Minas Tirith"]
    ∧ DisplayEvent.promptWarning
        ∉ mainEvents "k" (fun _ => ⟨"ZERO_RESULTS", []⟩)
            (fun _ => ⟨"OK", ⟨48, 2, some "a", some "u", none⟩⟩)
            (.content "Rome") (some [⟨"Minas Tirith", "d", 0, 0⟩]) "trip" true
    ∧ mainEvents "k" (fun _ => ⟨"ZERO_RESULTS", []⟩)
        (fun _ => ⟨"OK", ⟨48, 2, some "a", some "u", none⟩⟩)
        (.content "Rome") (some [⟨"Minas Tirith", "d", 0, 0⟩]) "" true
      = [DisplayEvent.promptWarning] :=
  c8_all_notfound_reporting "k" (fun _ => ⟨"ZERO_RESULTS", []⟩)
    (fun _ => ⟨"OK", ⟨48, 2, some "a", some "u", none⟩⟩) "Rome" (by decide)
    [⟨"Minas Tirith", "d", 0, 0⟩] "trip" (by decide)
    (fun c hc => by
      rw [List.mem_singleton] at hc
      subst hc
      rfl)

/-- Claim C9: the multi-stop directions link is the directions base
followed by the percent-encoded `"name@lat,lng"` stops joined with `/`
separators in list order. -/
theorem c9_directions_link (p : ValidatedPlace) (rest : List ValidatedPlace) :
    combined_map_link (p :: rest)
      = "https://www.google.com/maps/dir/" ++
          quote (p.name ++ "@" ++ toString p.latitude ++ "," ++
            toString p.longitude) ++
          String.join (rest.map (fun q2 =>
            "/" ++ quote (q2.name ++ "@" ++ toString q2.latitude ++ "," ++
              toString q2.longitude))) := by
  unfold combined_map_link stopString
  rw [List.map_cons, joinSlash_cons, List.map_map]
  simp only [String.append_assoc]
  rfl

/-- Claim C10: validation preserves the candidate's `name` and
`description`; only the coordinates are overwritten and the identifying
fields added, all taken from the successful lookup. -/
theorem c10_frame_preservation (key : String)
    (textOf : String → TextSearchResponse) (detailsOf : String → DetailsResponse)
    (location : String) (cands : List CandidatePlace) :
    ∀ v ∈ (validateAll key textOf detailsOf location cands).1,
      ∃ c ∈ cands, v.name = c.name ∧ v.description = c.description ∧
        lookupPlace key textOf detailsOf location c.name
          = PlaceLookupResult.found v.latitude v.longitude v.place_id
              v.maps_url v.photo_url := by
  induction cands with
  | nil => intro v hv; simp [validateAll] at hv
  | cons c rest ih =>
    intro v hv
    cases hl : lookupPlace key textOf detailsOf location c.name with
    | found lat lng pid murl purl =>
      simp only [validateAll, hl] at hv
      rcases List.mem_cons.mp hv with rfl | hv
      · exact ⟨c, List.mem_cons_self c rest, rfl, rfl, hl⟩
      · obtain ⟨c2, hc2, h1, h2, h3⟩ := ih v hv
        exact ⟨c2, List.mem_cons_of_mem c hc2, h1, h2, h3⟩
    | notFound =>
      simp only [validateAll, hl] at hv
      obtain ⟨c2, hc2, h1, h2, h3⟩ := ih v hv
      exact ⟨c2, List.mem_cons_of_mem c hc2, h1, h2, h3⟩

/-- Witness for C10 at a concrete one-candidate run. -/
theorem c10_witness :
    ∃ c ∈ [(⟨"Eiffel Tower", "d", 0, 0⟩ : CandidatePlace)],
      (⟨"Eiffel Tower", "d", 48, 2, "p1", "u", none⟩ : ValidatedPlace).name = c.name
      ∧ (⟨"Eiffel Tower", "d", 48, 2, "p1", "u", none⟩ : ValidatedPlace).description
          = c.description
      ∧ lookupPlace "k" (fun _ => ⟨"OK", [⟨"p1"⟩]⟩)
          (fun _ => ⟨"OK", ⟨48, 2, some "a", some "u", none⟩⟩) "Paris" c.name
        = PlaceLookupResult.found
            (⟨"Eiffel Tower", "d", 48, 2, "p1", "u", none⟩ : ValidatedPlace).latitude
            (⟨"Eiffel Tower", "d", 48, 2, "p1", "u", none⟩ : ValidatedPlace).longitude
            (⟨"Eiffel Tower", "d", 48, 2, "p1", "u", none⟩ : ValidatedPlace).place_id
            (⟨"Eiffel Tower", "d", 48, 2, "p1", "u", none⟩ : ValidatedPlace).maps_url
            (⟨"Eiffel Tower", "d", 48, 2, "p1", "u", none⟩ : ValidatedPlace).photo_url :=
  c10_frame_preservation "k" (fun _ => ⟨"OK", [⟨"p1"⟩]⟩)
    (fun _ => ⟨"OK", ⟨48, 2, some "a", some "u", none⟩⟩) "Paris"
    [⟨"Eiffel Tower", "d", 0, 0⟩]
    ⟨"Eiffel Tower", "d", 48, 2, "p1", "u", none⟩ (by decide)
